import Mathlib

/-!
Verification development for the FaveroBLE2Serial bridge
(`fa15serial.py`): a shallow embedding of the characteristic decoders,
the shared 10-byte state buffer `fs_data`, the frame encoder
`generate_10_byte_string`, the notification dispatcher
`handle_notification`, and the serial transmit loop `send_favero_data`,
together with theorems about them.

Modelling conventions:
* a Python `bytearray(10)` global is the structure `FsData` with ten
  `Nat` fields `b0 … b9`;
* payloads are `List Nat` (each entry one byte of the notification);
* a Python function that may `raise` is modelled as returning
  `PyResult Display × FsData`: the first component is the returned
  display value or the escaped exception, the second is the value of
  the global `fs_data` after the call (so a partial update made before
  an exception is visible in the result);
* Python `x & ~m` on nonnegative ints is `py_and_not x m = x ^^^ (x &&& m)`,
  which clears in `x` exactly the bits set in `m`;
* the exception message strings keep the fixed prefix of the Python
  message and drop the interpolated `repr(data)` suffix.
-/

/-- Result of running a Python function body: either the value it
returned, or the message of the `ValueError` that escaped it. -/
inductive PyResult (α : Type) where
  | ok : α → PyResult α
  | exn : String → PyResult α
deriving DecidableEq, Repr

/-- A decoder's display value: most decoders return a string, but
`interpret_scores` returns the integer score. -/
inductive Display where
  | str : String → Display
  | num : Nat → Display
deriving DecidableEq, Repr

/-- The global 10-byte buffer `fs_data`, one field per byte index. -/
structure FsData where
  b0 : Nat
  b1 : Nat
  b2 : Nat
  b3 : Nat
  b4 : Nat
  b5 : Nat
  b6 : Nat
  b7 : Nat
  b8 : Nat
  b9 : Nat
deriving DecidableEq, Repr

/-- `fs_data = bytearray(10); fs_data[0] = 255` — the initial value of
the shared buffer. -/
def fs_data : FsData :=
  { b0 := 255, b1 := 0, b2 := 0, b3 := 0, b4 := 0,
    b5 := 0, b6 := 0, b7 := 0, b8 := 0, b9 := 0 }

/-- The ten bytes of the buffer in index order. -/
def FsData.toBytes (fs : FsData) : List Nat :=
  [fs.b0, fs.b1, fs.b2, fs.b3, fs.b4, fs.b5, fs.b6, fs.b7, fs.b8, fs.b9]

/-- Python `x & ~m` for nonnegative `x`, `m`: clears in `x` the bits set
in `m` (xor with the common bits removes exactly them). -/
def py_and_not (x m : Nat) : Nat := x ^^^ (x &&& m)

/-- `int_to_bcd`: raises unless `0 ≤ value ≤ 99`, then returns
`(value // 10 << 4) | (value % 10)` (a byte value is never negative). -/
def int_to_bcd (value : Nat) : Except String Nat :=
  if value ≤ 99 then
    .ok ((value / 10) <<< 4 ||| value % 10)
  else
    .error "Input must be between 0 and 99"

/-- `TIME_PHASES` lookup dictionary. -/
def TIME_PHASES (b : Nat) : Option String :=
  if b = 0x04 then some "Active Period"
  else if b = 0x06 then some "Pause Period"
  else if b = 0x05 then some "Medical Break"
  else if b = 0x00 then some "Stopped"
  else none

/-- Python `"%02d" % n`: decimal rendering zero-padded to two digits. -/
def pad2 (n : Nat) : String :=
  if n < 10 then "0" ++ toString n else toString n

/-- Lower-case hex digit, as used by `bytes.hex()`. -/
def hexDigit (n : Nat) : Char :=
  if n < 10 then Char.ofNat (48 + n) else Char.ofNat (87 + n)

/-- One byte as two lower-case hex digits. -/
def byte_hex (b : Nat) : String :=
  String.mk [hexDigit (b / 16 % 16), hexDigit (b % 16)]

/-- Python `data.hex()`. -/
def bytes_hex (data : List Nat) : String :=
  String.join (data.map byte_hex)

/-- `interpret_scores(data, name)`: requires a 1-byte payload, then
writes the BCD-packed score into `fs_data[2]` (leftScore) or
`fs_data[1]` (rightScore), returning the raw score. -/
def interpret_scores (data : List Nat) (name : String) (fs : FsData) :
    PyResult Display × FsData :=
  if data.length ≠ 1 then
    (.exn "Invalid input data. Must be a bytearray of length 1", fs)
  else
    let score := data.get! 0
    if name = "leftScore" then
      match int_to_bcd score with
      | .ok b => (.ok (.num score), { fs with b2 := b })
      | .error e => (.exn e, fs)
    else if name = "rightScore" then
      match int_to_bcd score with
      | .ok b => (.ok (.num score), { fs with b1 := b })
      | .error e => (.exn e, fs)
    else
      (.exn "Invalid name. Must be 'leftScore' or 'rightScore'.", fs)

/-- `interpret_period(data)`: on a payload that is not exactly 1 byte it
returns the string "Invalid Period Data" (it does not raise); otherwise
it clears the low two bits of `fs_data[6]`, ors in `data[0] & 0b11`, and
returns the period status string. -/
def interpret_period (data : List Nat) (fs : FsData) :
    PyResult Display × FsData :=
  if data.length ≠ 1 then
    (.ok (.str "Invalid Period Data"), fs)
  else
    let period_number := data.get! 0
    let b6a := py_and_not fs.b6 0b00000011
    let b6b := b6a ||| (period_number &&& 0b00000011)
    let period_status :=
      if period_number = 0x00 then
        "No Period/Match '-'"
      else if period_number ≤ 0x09 then
        s!"Period/Match No {period_number}"
      else if period_number = 0x0A then
        "Error"
      else
        s!"Unknown Period Value ({period_number})"
    (.ok (.str period_status), { fs with b6 := b6b })

/-- `interpret_time(data)`: on a payload that is not exactly 4 bytes it
returns the string "Invalid Time Data" (it does not raise); otherwise it
writes `int_to_bcd(seconds)` to `fs_data[3]` and `int_to_bcd(minutes)`
to `fs_data[4]` in that order — so if `minutes > 99` the `ValueError`
escapes after `fs_data[3]` has already been updated — and returns
"M:SS:HH (phase)". -/
def interpret_time (data : List Nat) (fs : FsData) :
    PyResult Display × FsData :=
  if data.length ≠ 4 then
    (.ok (.str "Invalid Time Data"), fs)
  else
    let hundreds := data.get! 0
    let seconds := data.get! 1
    let minutes := data.get! 2
    let phase_byte := data.get! 3
    match int_to_bcd seconds with
    | .error e => (.exn e, fs)
    | .ok v3 =>
      let fs1 := { fs with b3 := v3 }
      match int_to_bcd minutes with
      | .error e => (.exn e, fs1)
      | .ok v4 =>
        let fs2 := { fs1 with b4 := v4 }
        let unknown := s!"Unknown Phase ({phase_byte})"
        let phase_status := (TIME_PHASES phase_byte).getD unknown
        let ss := pad2 seconds
        let hh := pad2 hundreds
        (.ok (.str s!"{minutes}:{ss}:{hh} ({phase_status})"), fs2)

/-- `interpret_weapons(data)`: requires a 1-byte payload (raises
otherwise), maps the weapon code through the fixed dictionary, and never
touches `fs_data`. -/
def interpret_weapons (data : List Nat) (fs : FsData) :
    PyResult Display × FsData :=
  if data.length ≠ 1 then
    (.exn "Invalid input data. Must be a bytearray of length 1", fs)
  else
    let w := data.get! 0
    let weapon :=
      if w = 0x14 then "Sabre"
      else if w = 0x00 then "√âp√©e"
      else if w = 0x01 then "√âp√©e"
      else if w = 0x02 then "√âp√©e"
      else if w = 0x0A then "Foil"
      else "?"
    (.ok (.str weapon), fs)

/-- `interpret_lamps(data)`: requires a 2-byte payload (raises
otherwise), resets `fs_data[5]` to zero and rebuilds it bit by bit from
the payload, then returns the lamp status string. -/
def interpret_lamps (data : List Nat) (fs : FsData) :
    PyResult Display × FsData :=
  if data.length ≠ 2 then
    (.exn "Invalid input data. Must be a bytearray of length 2", fs)
  else
    let d0 := data.get! 0
    let d1 := data.get! 1
    let l0 := 0x00
    let l1 := if d0 &&& 0x04 ≠ 0 then l0 ||| 0x01 else l0
    let l2 := if d1 &&& 0x01 ≠ 0 then l1 ||| 0x02 else l1
    let l3 := if d0 &&& 0x01 ≠ 0 then l2 ||| 0x04 else l2
    let l4 := if d0 &&& 0x40 ≠ 0 then l3 ||| 0x08 else l3
    let l5 := if d1 &&& 0x04 ≠ 0 then l4 ||| 0x10 else l4
    let l6 := if d0 &&& 0x10 ≠ 0 then l5 ||| 0x20 else l5
    let fs1 := { fs with b5 := l6 }
    let ls := if l6 &&& 0x04 ≠ 0 then "ON" else "OFF"
    let lw := if l6 &&& 0x01 ≠ 0 then "ON" else "OFF"
    let ly := if l6 &&& 0x20 ≠ 0 then "ON" else "OFF"
    let rs := if l6 &&& 0x08 ≠ 0 then "ON" else "OFF"
    let rw := if l6 &&& 0x02 ≠ 0 then "ON" else "OFF"
    let ry := if l6 &&& 0x10 ≠ 0 then "ON" else "OFF"
    (.ok (.str (s!"LEFT - Score: {ls} / White: {lw} / Yellow: {ly}\n" ++
                s!"RIGHT - Score: {rs} / White: {rw} / Yellow: {ry}")), fs1)

/-- `interpret_cards(data, name)`: validates `name` first (raises on an
unknown name), then requires a 2-byte payload (raises otherwise), then
sets or clears the side's red/yellow bits in `fs_data[8]` and its
priority bit in `fs_data[6]`, returning the card status string. -/
def interpret_cards (data : List Nat) (name : String) (fs : FsData) :
    PyResult Display × FsData :=
  if name ≠ "leftCards" ∧ name ≠ "rightCards" then
    (.exn "Invalid name. Must be 'leftCards' or 'rightCards'.", fs)
  else if data.length ≠ 2 then
    (.exn "Invalid input data. Must be a bytearray of length 2.", fs)
  else
    let d0 := data.get! 0
    let d1 := data.get! 1
    let red_card := d0 &&& 0x10 ≠ 0
    let p_card := d0 &&& 0x03
    let yellow_card := d1 &&& 0x01 ≠ 0
    let priority := d1 &&& 0x04 ≠ 0
    let p_card_status :=
      if p_card = 0 then "OFF"
      else if p_card = 1 then "1st"
      else if p_card = 2 then "2nd"
      else if p_card = 3 then "3rd"
      else "OFF"
    let yellow_status := if yellow_card then "ON" else "OFF"
    let red_status := if red_card then "ON" else "OFF"
    let priority_status := if priority then "ON" else "OFF"
    let fs2 :=
      if name = "leftCards" then
        let v8a := if red_card then fs.b8 ||| 0x02 else py_and_not fs.b8 0x02
        let v8b := if yellow_card then v8a ||| 0x08 else py_and_not v8a 0x08
        let v6 := if priority then fs.b6 ||| 0x08 else py_and_not fs.b6 0x08
        { fs with b8 := v8b, b6 := v6 }
      else
        let v8a := if red_card then fs.b8 ||| 0x01 else py_and_not fs.b8 0x01
        let v8b := if yellow_card then v8a ||| 0x04 else py_and_not v8a 0x04
        let v6 := if priority then fs.b6 ||| 0x04 else py_and_not fs.b6 0x04
        { fs with b8 := v8b, b6 := v6 }
    (.ok (.str (s!"Yellow: {yellow_status} / Red: {red_status} / " ++
                s!"P-Card: {p_card_status} / Priority: {priority_status}")),
     fs2)

/-- `handle_notification`: dispatch on the characteristic name (the
result of the UUID lookup) to the matching decoder; unknown names render
the raw payload and touch no state.  A decoder exception propagates
unchanged (the handler has no try/except). -/
def handle_notification (characteristic_name : String) (data : List Nat)
    (fs : FsData) : PyResult Display × FsData :=
  if characteristic_name = "time" then
    interpret_time data fs
  else if characteristic_name = "lamp" then
    interpret_lamps data fs
  else if characteristic_name = "leftScore" ∨
      characteristic_name = "rightScore" then
    interpret_scores data characteristic_name fs
  else if characteristic_name = "leftCards" ∨
      characteristic_name = "rightCards" then
    interpret_cards data characteristic_name fs
  else if characteristic_name = "period" then
    interpret_period data fs
  else if characteristic_name = "weapon" then
    interpret_weapons data fs
  else
    let hx := bytes_hex data
    (.ok (.str s!"Raw Value: {hx}"), fs)

/-- The state of the shared buffer after a sequence of notifications has
been dispatched in arrival order (each notification is a characteristic
name plus payload). -/
def dispatch_session (events : List (String × List Nat)) (fs : FsData) :
    FsData :=
  events.foldl (fun s e => (handle_notification e.1 e.2 s).2) fs

/-- `generate_10_byte_string(data)`: writes `sum(data[:9]) % 256` into
byte 9 and returns the buffer (the length-10 requirement is enforced by
the `FsData` type). -/
def generate_10_byte_string (fs : FsData) : FsData :=
  { fs with
    b9 := (fs.b0 + fs.b1 + fs.b2 + fs.b3 + fs.b4 + fs.b5 + fs.b6 +
           fs.b7 + fs.b8) % 256 }

/-- `send_favero_data(ser)` for a finite trace of injected outcomes of
`ser.write` (`true` = the write succeeded): each iteration encodes the
buffer in place and writes it; the loop body has no try/except, so the
first failing write raises a `SerialException` that escapes the loop.
The second component is `none` while the loop is still running after
consuming the trace, and `some msg` when an exception terminated it. -/
def send_favero_data (fs : FsData) : List Bool → FsData × Option String
  | [] => (fs, none)
  | okw :: rest =>
    let fs1 := generate_10_byte_string fs
    if okw then send_favero_data fs1 rest
    else (fs1, some "SerialException: write failed")

/-! ### Bit-level helper lemmas -/

lemma py_and_not_testBit (x m i : Nat) :
    (py_and_not x m).testBit i = (x.testBit i && !(m.testBit i)) := by
  simp only [py_and_not, Nat.testBit_xor, Nat.testBit_land]
  cases x.testBit i <;> cases m.testBit i <;> rfl

lemma testBit_one (i : Nat) : (1 : Nat).testBit i = decide (0 = i) := by
  rw [(by norm_num : (1 : Nat) = 2 ^ 0), Nat.testBit_two_pow]

lemma testBit_two (i : Nat) : (2 : Nat).testBit i = decide (1 = i) := by
  rw [(by norm_num : (2 : Nat) = 2 ^ 1), Nat.testBit_two_pow]

lemma testBit_three (i : Nat) : (3 : Nat).testBit i = decide (i < 2) := by
  rw [(by norm_num : (3 : Nat) = 2 ^ 2 - 1), Nat.testBit_two_pow_sub_one]

lemma testBit_four (i : Nat) : (4 : Nat).testBit i = decide (2 = i) := by
  rw [(by norm_num : (4 : Nat) = 2 ^ 2), Nat.testBit_two_pow]

lemma testBit_eight (i : Nat) : (8 : Nat).testBit i = decide (3 = i) := by
  rw [(by norm_num : (8 : Nat) = 2 ^ 3), Nat.testBit_two_pow]

/-! ### No decoder writes byte 0 or byte 7 of the buffer -/

lemma interpret_time_b0b7 (d : List Nat) (fs : FsData) :
    ((interpret_time d fs).2.b0 = fs.b0) ∧ ((interpret_time d fs).2.b7 = fs.b7) := by
  constructor
  all_goals unfold interpret_time
  all_goals dsimp only
  all_goals repeat' split
  all_goals rfl

lemma interpret_scores_b0b7 (d : List Nat) (nm : String) (fs : FsData) :
    ((interpret_scores d nm fs).2.b0 = fs.b0) ∧
    ((interpret_scores d nm fs).2.b7 = fs.b7) := by
  constructor
  all_goals unfold interpret_scores
  all_goals dsimp only
  all_goals repeat' split
  all_goals rfl

lemma interpret_cards_b0b7 (d : List Nat) (nm : String) (fs : FsData) :
    ((interpret_cards d nm fs).2.b0 = fs.b0) ∧
    ((interpret_cards d nm fs).2.b7 = fs.b7) := by
  constructor
  all_goals unfold interpret_cards
  all_goals dsimp only
  all_goals repeat' split
  all_goals rfl

lemma interpret_lamps_b0b7 (d : List Nat) (fs : FsData) :
    ((interpret_lamps d fs).2.b0 = fs.b0) ∧ ((interpret_lamps d fs).2.b7 = fs.b7) := by
  constructor
  all_goals unfold interpret_lamps
  all_goals split
  all_goals rfl

lemma interpret_period_b0b7 (d : List Nat) (fs : FsData) :
    ((interpret_period d fs).2.b0 = fs.b0) ∧ ((interpret_period d fs).2.b7 = fs.b7) := by
  constructor
  all_goals unfold interpret_period
  all_goals split
  all_goals rfl

lemma interpret_weapons_b0b7 (d : List Nat) (fs : FsData) :
    ((interpret_weapons d fs).2.b0 = fs.b0) ∧ ((interpret_weapons d fs).2.b7 = fs.b7) := by
  constructor
  all_goals unfold interpret_weapons
  all_goals split
  all_goals rfl

lemma handle_notification_b0b7 (nm : String) (d : List Nat) (fs : FsData) :
    ((handle_notification nm d fs).2.b0 = fs.b0) ∧
    ((handle_notification nm d fs).2.b7 = fs.b7) := by
  unfold handle_notification
  repeat' split
  · exact interpret_time_b0b7 d fs
  · exact interpret_lamps_b0b7 d fs
  · exact interpret_scores_b0b7 d nm fs
  · exact interpret_cards_b0b7 d nm fs
  · exact interpret_period_b0b7 d fs
  · exact interpret_weapons_b0b7 d fs
  · exact ⟨rfl, rfl⟩

lemma dispatch_session_b0b7 (events : List (String × List Nat)) (fs : FsData) :
    ((dispatch_session events fs).b0 = fs.b0) ∧
    ((dispatch_session events fs).b7 = fs.b7) := by
  induction events generalizing fs with
  | nil => exact ⟨rfl, rfl⟩
  | cons e rest ih =>
    unfold dispatch_session at *
    simp only [List.foldl_cons]
    obtain ⟨h0, h7⟩ := ih ((handle_notification e.1 e.2 fs).2)
    obtain ⟨g0, g7⟩ := handle_notification_b0b7 e.1 e.2 fs
    exact ⟨h0.trans g0, h7.trans g7⟩

/-! ### Claim theorems -/

/-- C1: after any sequence of notifications dispatched from the initial
state, the encoded frame is exactly 10 bytes, byte 0 is the constant
`0xFF`, byte 7 is the reserved constant `0x00`, and byte 9 equals the
sum of bytes 0 through 8 modulo 256. -/
theorem encoded_frame_shape_and_checksum (events : List (String × List Nat)) :
    ((generate_10_byte_string (dispatch_session events fs_data)).toBytes.length = 10) ∧
    ((generate_10_byte_string (dispatch_session events fs_data)).toBytes.get! 0 = 0xFF) ∧
    ((generate_10_byte_string (dispatch_session events fs_data)).toBytes.get! 7 = 0x00) ∧
    ((generate_10_byte_string (dispatch_session events fs_data)).toBytes.get! 9 =
      ((generate_10_byte_string (dispatch_session events fs_data)).toBytes.take 9).sum % 256) := by
  obtain ⟨h0, h7⟩ := dispatch_session_b0b7 events fs_data
  refine ⟨rfl, ?_, ?_, ?_⟩
  · show (dispatch_session events fs_data).b0 = 0xFF
    rw [h0]
    rfl
  · show (dispatch_session events fs_data).b7 = 0x00
    rw [h7]
    rfl
  · simp [FsData.toBytes, generate_10_byte_string]
    omega

/-- C10: re-encoding an already encoded frame is a fixed point, because
the checksum written into byte 9 is computed over bytes 0 through 8
only. -/
theorem generate_10_byte_string_idempotent (fs : FsData) :
    generate_10_byte_string (generate_10_byte_string fs) =
      generate_10_byte_string fs := rfl

lemma interpret_lamps_b5_eq (d0 d1 : Nat) (fs : FsData) :
    (interpret_lamps [d0, d1] fs).2.b5 =
      (let l1 := if d0 &&& 0x04 ≠ 0 then 0 ||| 0x01 else (0 : Nat)
       let l2 := if d1 &&& 0x01 ≠ 0 then l1 ||| 0x02 else l1
       let l3 := if d0 &&& 0x01 ≠ 0 then l2 ||| 0x04 else l2
       let l4 := if d0 &&& 0x40 ≠ 0 then l3 ||| 0x08 else l3
       let l5 := if d1 &&& 0x04 ≠ 0 then l4 ||| 0x10 else l4
       if d0 &&& 0x10 ≠ 0 then l5 ||| 0x20 else l5) := rfl

/-- C2 counterexample: the score decoder does not store the raw value.
For the 1-byte payload `[10]` on the left score, decoding and then
encoding yields frame byte 2 equal to `16` (the BCD packing of 10), not
`10` as the claim states. -/
theorem score_raw_storage_counterexample :
    ((generate_10_byte_string (interpret_scores [10] "leftScore" fs_data).2).toBytes.get! 2 = 16) ∧
    ¬ ((generate_10_byte_string (interpret_scores [10] "leftScore" fs_data).2).toBytes.get! 2 = 10) := by
  decide

/-- C2 amended: for every 1-byte score payload with value `v ≤ 99`, the
score decoder updates `fs_data[2]` (leftScore) or `fs_data[1]`
(rightScore) with the BCD-packed value `((v/10)<<4)|(v%10)` and returns
the raw score, so decoding then immediately encoding yields the
corresponding frame byte equal to that BCD packing. -/
theorem score_stores_bcd_packed (v : Nat) (fs : FsData) (hv : v ≤ 99) :
    ((interpret_scores [v] "leftScore" fs).1 = .ok (.num v)) ∧
    ((generate_10_byte_string (interpret_scores [v] "leftScore" fs).2).toBytes.get! 2 =
      (v / 10) <<< 4 ||| v % 10) ∧
    ((interpret_scores [v] "rightScore" fs).1 = .ok (.num v)) ∧
    ((generate_10_byte_string (interpret_scores [v] "rightScore" fs).2).toBytes.get! 1 =
      (v / 10) <<< 4 ||| v % 10) := by
  refine ⟨?_, ?_, ?_, ?_⟩ <;>
    simp [interpret_scores, int_to_bcd, hv, generate_10_byte_string, FsData.toBytes]

/-- Witness for the C2 theorem at the concrete score 42. -/
theorem score_stores_bcd_packed_witness :
    ((interpret_scores [42] "leftScore" fs_data).1 = .ok (.num 42)) ∧
    ((generate_10_byte_string (interpret_scores [42] "leftScore" fs_data).2).toBytes.get! 2 =
      (42 / 10) <<< 4 ||| 42 % 10) ∧
    ((interpret_scores [42] "rightScore" fs_data).1 = .ok (.num 42)) ∧
    ((generate_10_byte_string (interpret_scores [42] "rightScore" fs_data).2).toBytes.get! 1 =
      (42 / 10) <<< 4 ||| 42 % 10) :=
  score_stores_bcd_packed 42 fs_data (by decide)

/-- C3 counterexample: on the payload `[0x05, 0x1E, 0x02, 0x04]` the
time decoder stores `0x30 = 48` (the BCD packing of 30 seconds) into
frame byte 3, not `payload[1] = 0x1E = 30` as the claim states. -/
theorem time_bcd_counterexample :
    ((interpret_time [0x05, 0x1E, 0x02, 0x04] fs_data).2.b3 = 48) ∧
    ¬ ((interpret_time [0x05, 0x1E, 0x02, 0x04] fs_data).2.b3 = 0x1E) := by
  decide

/-- C3 amended: for every 4-byte time payload
`[hundredths, seconds, minutes, phaseCode]` with `seconds ≤ 99` and
`minutes ≤ 99`, the time decoder stores the BCD packing of `payload[1]`
into frame byte 3 and the BCD packing of the full `payload[2]` (not its
low nibble) into frame byte 4; the payload `[0x05, 0x1E, 0x02, 0x04]`
yields display "2:30:05 (Active Period)" and stored bytes `b3 = 0x30`,
`b4 = 0x02`. -/
theorem time_stores_bcd (hh ss mm pp : Nat) (fs : FsData)
    (hs : ss ≤ 99) (hm : mm ≤ 99) :
    ((interpret_time [hh, ss, mm, pp] fs).2 =
      { fs with b3 := (ss / 10) <<< 4 ||| ss % 10,
                b4 := (mm / 10) <<< 4 ||| mm % 10 }) ∧
    (interpret_time [0x05, 0x1E, 0x02, 0x04] fs_data =
      (.ok (.str "2:30:05 (Active Period)"), { fs_data with b3 := 0x30, b4 := 0x02 })) := by
  constructor
  · simp [interpret_time, int_to_bcd, hs, hm]
  · decide

/-- Witness for the C3 theorem at the payload of the spec's scenario. -/
theorem time_stores_bcd_witness :
    (interpret_time [5, 30, 2, 4] fs_data).2 =
      { fs_data with b3 := (30 / 10) <<< 4 ||| 30 % 10,
                     b4 := (2 / 10) <<< 4 ||| 2 % 10 } :=
  (time_stores_bcd 5 30 2 4 fs_data (by decide) (by decide)).1

/-- C4: the lamp decoder recomputes the full 6-bit lamps field from the
2-byte payload alone — the result is independent of the prior state,
each bit is the stated function of the payload, and the payload
`[0x05, 0x05]` yields `lamps = 0x17`. -/
theorem lamps_recomputed_from_payload_alone (d0 d1 : Nat) (fs fsp : FsData) :
    ((interpret_lamps [d0, d1] fs).2.b5 = (interpret_lamps [d0, d1] fsp).2.b5) ∧
    ((interpret_lamps [d0, d1] fs).2.b5.testBit 0 = decide (d0 &&& 0x04 ≠ 0)) ∧
    ((interpret_lamps [d0, d1] fs).2.b5.testBit 1 = decide (d1 &&& 0x01 ≠ 0)) ∧
    ((interpret_lamps [d0, d1] fs).2.b5.testBit 2 = decide (d0 &&& 0x01 ≠ 0)) ∧
    ((interpret_lamps [d0, d1] fs).2.b5.testBit 3 = decide (d0 &&& 0x40 ≠ 0)) ∧
    ((interpret_lamps [d0, d1] fs).2.b5.testBit 4 = decide (d1 &&& 0x04 ≠ 0)) ∧
    ((interpret_lamps [d0, d1] fs).2.b5.testBit 5 = decide (d0 &&& 0x10 ≠ 0)) ∧
    ((interpret_lamps [0x05, 0x05] fs).2.b5 = 0x17) := by
  refine ⟨(interpret_lamps_b5_eq d0 d1 fs).trans (interpret_lamps_b5_eq d0 d1 fsp).symm,
    ?_, ?_, ?_, ?_, ?_, ?_, rfl⟩ <;>
  rw [interpret_lamps_b5_eq] <;>
  by_cases h1 : d0 &&& 0x04 = 0 <;> by_cases h2 : d1 &&& 0x01 = 0 <;>
    by_cases h3 : d0 &&& 0x01 = 0 <;> by_cases h4 : d0 &&& 0x40 = 0 <;>
    by_cases h5 : d1 &&& 0x04 = 0 <;> by_cases h6 : d0 &&& 0x10 = 0 <;>
    simp only [h1, h2, h3, h4, h5, h6, ne_eq, eq_self_iff_true, not_true,
      not_false_iff, if_true, if_false, ite_true, ite_false, decide_True,
      decide_False] <;> decide

/-- C5 counterexample: the time decoder does not fail on a wrong-length
payload — it returns the normal display result "Invalid Time Data" — and
a 4-byte payload with in-range seconds but out-of-range minutes raises
only after frame byte 3 has already been updated, so the state after the
failed decode differs from the state before it. -/
theorem invalid_payload_error_counterexample :
    ((interpret_time [] fs_data).1 = .ok (.str "Invalid Time Data")) ∧
    ((interpret_time [0, 50, 200, 4] fs_data).1 =
      .exn "Input must be between 0 and 99") ∧
    ¬ ((interpret_time [0, 50, 200, 4] fs_data).2 = fs_data) := by
  decide

/-- C5 amended: score, lamp, cards and weapon decoders raise a
`ValueError` on a wrong-length payload and leave the state unchanged;
the score decoder also raises on an out-of-range value with the state
unchanged; the time and period decoders instead return an error display
string on a wrong-length payload (state unchanged, no error raised); and
a 4-byte time payload with `seconds ≤ 99 < minutes` raises after having
already written the BCD seconds into frame byte 3 (a partial update). -/
theorem decoders_on_invalid_payloads (fs : FsData) :
    (∀ (d : List Nat) (nm : String), d.length ≠ 1 →
      interpret_scores d nm fs =
        (.exn "Invalid input data. Must be a bytearray of length 1", fs)) ∧
    (∀ v : Nat, 99 < v →
      (interpret_scores [v] "leftScore" fs =
        (.exn "Input must be between 0 and 99", fs)) ∧
      (interpret_scores [v] "rightScore" fs =
        (.exn "Input must be between 0 and 99", fs))) ∧
    (∀ d : List Nat, d.length ≠ 2 →
      interpret_lamps d fs =
        (.exn "Invalid input data. Must be a bytearray of length 2", fs)) ∧
    (∀ d : List Nat, d.length ≠ 2 →
      (interpret_cards d "leftCards" fs =
        (.exn "Invalid input data. Must be a bytearray of length 2.", fs)) ∧
      (interpret_cards d "rightCards" fs =
        (.exn "Invalid input data. Must be a bytearray of length 2.", fs))) ∧
    (∀ d : List Nat, d.length ≠ 1 →
      interpret_weapons d fs =
        (.exn "Invalid input data. Must be a bytearray of length 1", fs)) ∧
    (∀ d : List Nat, d.length ≠ 4 →
      interpret_time d fs = (.ok (.str "Invalid Time Data"), fs)) ∧
    (∀ d : List Nat, d.length ≠ 1 →
      interpret_period d fs = (.ok (.str "Invalid Period Data"), fs)) ∧
    (∀ hh ss mm pp : Nat, ss ≤ 99 → 99 < mm →
      interpret_time [hh, ss, mm, pp] fs =
        (.exn "Input must be between 0 and 99",
         { fs with b3 := (ss / 10) <<< 4 ||| ss % 10 })) := by
  refine ⟨?_, ?_, ?_, ?_, ?_, ?_, ?_, ?_⟩
  · intro d nm hd
    simp [interpret_scores, hd]
  · intro v hv
    have hv2 : ¬ v ≤ 99 := by omega
    constructor <;> simp [interpret_scores, int_to_bcd, hv2]
  · intro d hd
    simp [interpret_lamps, hd]
  · intro d hd
    constructor <;> simp [interpret_cards, hd]
  · intro d hd
    simp [interpret_weapons, hd]
  · intro d hd
    simp [interpret_time, hd]
  · intro d hd
    simp [interpret_period, hd]
  · intro hh ss mm pp hs hm
    have hm2 : ¬ mm ≤ 99 := by omega
    simp [interpret_time, int_to_bcd, hs, hm2]

/-- Witness for the C5 theorem at concrete invalid payloads. -/
theorem decoders_on_invalid_payloads_witness :
    (interpret_scores [] "leftScore" fs_data =
      (.exn "Invalid input data. Must be a bytearray of length 1", fs_data)) ∧
    (interpret_scores [100] "leftScore" fs_data =
      (.exn "Input must be between 0 and 99", fs_data)) ∧
    (interpret_lamps [1] fs_data =
      (.exn "Invalid input data. Must be a bytearray of length 2", fs_data)) ∧
    (interpret_cards [1] "leftCards" fs_data =
      (.exn "Invalid input data. Must be a bytearray of length 2.", fs_data)) ∧
    (interpret_weapons [] fs_data =
      (.exn "Invalid input data. Must be a bytearray of length 1", fs_data)) ∧
    (interpret_time [1, 2] fs_data = (.ok (.str "Invalid Time Data"), fs_data)) ∧
    (interpret_period [1, 2] fs_data = (.ok (.str "Invalid Period Data"), fs_data)) ∧
    (interpret_time [0, 50, 200, 4] fs_data =
      (.exn "Input must be between 0 and 99",
       { fs_data with b3 := (50 / 10) <<< 4 ||| 50 % 10 })) :=
  ⟨(decoders_on_invalid_payloads fs_data).1 [] "leftScore" (by decide),
   ((decoders_on_invalid_payloads fs_data).2.1 100 (by decide)).1,
   (decoders_on_invalid_payloads fs_data).2.2.1 [1] (by decide),
   ((decoders_on_invalid_payloads fs_data).2.2.2.1 [1] (by decide)).1,
   (decoders_on_invalid_payloads fs_data).2.2.2.2.1 [] (by decide),
   (decoders_on_invalid_payloads fs_data).2.2.2.2.2.1 [1, 2] (by decide),
   (decoders_on_invalid_payloads fs_data).2.2.2.2.2.2.1 [1, 2] (by decide),
   (decoders_on_invalid_payloads fs_data).2.2.2.2.2.2.2 0 50 200 4 (by decide) (by decide)⟩

lemma interpret_period_state_eq (v : Nat) (fs : FsData) :
    (interpret_period [v] fs).2 =
      { fs with b6 := py_and_not fs.b6 3 ||| (v &&& 3) } := rfl

/-- C7 counterexample: a 2-byte period payload — which the claim says is
acceptable (length at least 1) — is rejected: the decoder returns
"Invalid Period Data" and leaves the low two bits of
`matchAndPriority` at 0 instead of storing `1 &&& 3 = 1`. -/
theorem period_length_counterexample :
    (interpret_period [1, 1] fs_data = (.ok (.str "Invalid Period Data"), fs_data)) ∧
    ¬ ((interpret_period [1, 1] fs_data).2.b6 &&& 3 = 1) := by
  decide

/-- C7 amended: for every period payload of exactly 1 byte with value
`v`, the decoder renders 0 as "No Period/Match '-'", 1–9 as
"Period/Match No N", 0x0A as "Error" and anything else as
"Unknown Period Value (v)", stores `v &&& 3` into the low two bits of
`matchAndPriority` while leaving every higher bit of that byte and every
other state field untouched; a payload whose length is not exactly 1
yields "Invalid Period Data" and no state change. -/
theorem period_updates_low_two_bits_only (v : Nat) (fs : FsData) :
    ((interpret_period [v] fs).1 = .ok (.str
      (if v = 0 then "No Period/Match '-'"
       else if v ≤ 9 then s!"Period/Match No {v}"
       else if v = 10 then "Error"
       else s!"Unknown Period Value ({v})"))) ∧
    ((interpret_period [v] fs).2.b6 &&& 3 = v &&& 3) ∧
    (∀ k, 2 ≤ k → (interpret_period [v] fs).2.b6.testBit k = fs.b6.testBit k) ∧
    ((interpret_period [v] fs).2 =
      { fs with b6 := (interpret_period [v] fs).2.b6 }) ∧
    (∀ d : List Nat, d.length ≠ 1 →
      interpret_period d fs = (.ok (.str "Invalid Period Data"), fs)) := by
  refine ⟨rfl, ?_, ?_, rfl, ?_⟩
  · rw [interpret_period_state_eq]
    apply Nat.eq_of_testBit_eq
    intro i
    by_cases hi : i < 2 <;>
      simp [Nat.testBit_land, Nat.testBit_lor, py_and_not_testBit, testBit_three, hi]
  · intro k hk
    have hk2 : ¬ k < 2 := by omega
    rw [interpret_period_state_eq]
    simp [Nat.testBit_lor, Nat.testBit_land, py_and_not_testBit, testBit_three, hk2]
  · intro d hd
    simp [interpret_period, hd]

/-- Witness for the C7 theorem at the 1-byte payload `[7]` and the
2-byte payload `[1, 1]`. -/
theorem period_updates_low_two_bits_only_witness :
    ((interpret_period [7] fs_data).2.b6 &&& 3 = 7 &&& 3) ∧
    ((interpret_period [7] fs_data).2.b6.testBit 5 = fs_data.b6.testBit 5) ∧
    (interpret_period [1, 1] fs_data = (.ok (.str "Invalid Period Data"), fs_data)) :=
  ⟨(period_updates_low_two_bits_only 7 fs_data).2.1,
   (period_updates_low_two_bits_only 7 fs_data).2.2.1 5 (by decide),
   (period_updates_low_two_bits_only 7 fs_data).2.2.2.2 [1, 1] (by decide)⟩

lemma interpret_cards_left_state_eq (d0 d1 : Nat) (fs : FsData) :
    (interpret_cards [d0, d1] "leftCards" fs).2 =
      { fs with
        b8 := (if d1 &&& 0x01 ≠ 0 then
                 (if d0 &&& 0x10 ≠ 0 then fs.b8 ||| 0x02 else py_and_not fs.b8 0x02) ||| 0x08
               else
                 py_and_not
                   (if d0 &&& 0x10 ≠ 0 then fs.b8 ||| 0x02 else py_and_not fs.b8 0x02) 0x08),
        b6 := if d1 &&& 0x04 ≠ 0 then fs.b6 ||| 0x08 else py_and_not fs.b6 0x08 } := rfl

lemma interpret_cards_right_state_eq (d0 d1 : Nat) (fs : FsData) :
    (interpret_cards [d0, d1] "rightCards" fs).2 =
      { fs with
        b8 := (if d1 &&& 0x01 ≠ 0 then
                 (if d0 &&& 0x10 ≠ 0 then fs.b8 ||| 0x01 else py_and_not fs.b8 0x01) ||| 0x04
               else
                 py_and_not
                   (if d0 &&& 0x10 ≠ 0 then fs.b8 ||| 0x01 else py_and_not fs.b8 0x01) 0x04),
        b6 := if d1 &&& 0x04 ≠ 0 then fs.b6 ||| 0x04 else py_and_not fs.b6 0x04 } := rfl

/-- C8: for every 2-byte cards payload, the left kind sets or clears
exactly the leftRed (bit 1) and leftYellow (bit 3) bits of the cards
byte and the leftPriority bit (bit 3) of the matchAndPriority byte,
driven by `b0 &&& 0x10`, `b1 &&& 0x01` and `b1 &&& 0x04` respectively;
the right kind symmetrically drives exactly rightRed (bit 0),
rightYellow (bit 2) and rightPriority (bit 2); every other bit of those
two bytes — in particular the other side's bits and the 2-bit match
number — and every other state field is unchanged. -/
theorem cards_update_exactly_own_side_bits (d0 d1 : Nat) (fs : FsData) :
    ((interpret_cards [d0, d1] "leftCards" fs).2.b8.testBit 1 = decide (d0 &&& 0x10 ≠ 0)) ∧
    ((interpret_cards [d0, d1] "leftCards" fs).2.b8.testBit 3 = decide (d1 &&& 0x01 ≠ 0)) ∧
    ((interpret_cards [d0, d1] "leftCards" fs).2.b6.testBit 3 = decide (d1 &&& 0x04 ≠ 0)) ∧
    (∀ k, k ≠ 1 → k ≠ 3 →
      (interpret_cards [d0, d1] "leftCards" fs).2.b8.testBit k = fs.b8.testBit k) ∧
    (∀ k, k ≠ 3 →
      (interpret_cards [d0, d1] "leftCards" fs).2.b6.testBit k = fs.b6.testBit k) ∧
    ((interpret_cards [d0, d1] "leftCards" fs).2 =
      { fs with b8 := (interpret_cards [d0, d1] "leftCards" fs).2.b8,
                b6 := (interpret_cards [d0, d1] "leftCards" fs).2.b6 }) ∧
    ((interpret_cards [d0, d1] "rightCards" fs).2.b8.testBit 0 = decide (d0 &&& 0x10 ≠ 0)) ∧
    ((interpret_cards [d0, d1] "rightCards" fs).2.b8.testBit 2 = decide (d1 &&& 0x01 ≠ 0)) ∧
    ((interpret_cards [d0, d1] "rightCards" fs).2.b6.testBit 2 = decide (d1 &&& 0x04 ≠ 0)) ∧
    (∀ k, k ≠ 0 → k ≠ 2 →
      (interpret_cards [d0, d1] "rightCards" fs).2.b8.testBit k = fs.b8.testBit k) ∧
    (∀ k, k ≠ 2 →
      (interpret_cards [d0, d1] "rightCards" fs).2.b6.testBit k = fs.b6.testBit k) ∧
    ((interpret_cards [d0, d1] "rightCards" fs).2 =
      { fs with b8 := (interpret_cards [d0, d1] "rightCards" fs).2.b8,
                b6 := (interpret_cards [d0, d1] "rightCards" fs).2.b6 }) := by
  have e00 : decide ((0 : Nat) = 0) = true := rfl
  have e11 : decide ((1 : Nat) = 1) = true := rfl
  have e22 : decide ((2 : Nat) = 2) = true := rfl
  have e33 : decide ((3 : Nat) = 3) = true := rfl
  have e20 : decide ((2 : Nat) = 0) = false := rfl
  have e02 : decide ((0 : Nat) = 2) = false := rfl
  have e13 : decide ((1 : Nat) = 3) = false := rfl
  have e31 : decide ((3 : Nat) = 1) = false := rfl
  refine ⟨?_, ?_, ?_, ?_, ?_, rfl, ?_, ?_, ?_, ?_, ?_, rfl⟩
  · rw [interpret_cards_left_state_eq]
    by_cases hy : d1 &&& 0x01 = 0 <;> by_cases hr : d0 &&& 0x10 = 0 <;>
      simp only [hy, hr, ne_eq, eq_self_iff_true, not_true, not_false_iff,
        if_true, if_false, ite_true, ite_false, Nat.testBit_lor, py_and_not_testBit,
        testBit_two, testBit_eight, e11, e31, decide_True, decide_False] <;> simp
  · rw [interpret_cards_left_state_eq]
    by_cases hy : d1 &&& 0x01 = 0 <;> by_cases hr : d0 &&& 0x10 = 0 <;>
      simp only [hy, hr, ne_eq, eq_self_iff_true, not_true, not_false_iff,
        if_true, if_false, ite_true, ite_false, Nat.testBit_lor, py_and_not_testBit,
        testBit_two, testBit_eight, e13, e33, decide_True, decide_False] <;> simp
  · rw [interpret_cards_left_state_eq]
    by_cases hp : d1 &&& 0x04 = 0 <;>
      simp only [hp, ne_eq, eq_self_iff_true, not_true, not_false_iff,
        if_true, if_false, ite_true, ite_false, Nat.testBit_lor, py_and_not_testBit,
        testBit_eight, e33, decide_True, decide_False] <;> simp
  · intro k hk1 hk3
    have e1 : decide (1 = k) = false := decide_eq_false (fun h => hk1 h.symm)
    have e3 : decide (3 = k) = false := decide_eq_false (fun h => hk3 h.symm)
    rw [interpret_cards_left_state_eq]
    by_cases hy : d1 &&& 0x01 = 0 <;> by_cases hr : d0 &&& 0x10 = 0 <;>
      simp only [hy, hr, ne_eq, eq_self_iff_true, not_true, not_false_iff,
        if_true, if_false, ite_true, ite_false, Nat.testBit_lor, py_and_not_testBit,
        testBit_two, testBit_eight, e1, e3] <;> simp
  · intro k hk3
    have e3 : decide (3 = k) = false := decide_eq_false (fun h => hk3 h.symm)
    rw [interpret_cards_left_state_eq]
    by_cases hp : d1 &&& 0x04 = 0 <;>
      simp only [hp, ne_eq, eq_self_iff_true, not_true, not_false_iff,
        if_true, if_false, ite_true, ite_false, Nat.testBit_lor, py_and_not_testBit,
        testBit_eight, e3] <;> simp
  · rw [interpret_cards_right_state_eq]
    by_cases hy : d1 &&& 0x01 = 0 <;> by_cases hr : d0 &&& 0x10 = 0 <;>
      simp only [hy, hr, ne_eq, eq_self_iff_true, not_true, not_false_iff,
        if_true, if_false, ite_true, ite_false, Nat.testBit_lor, py_and_not_testBit,
        testBit_one, testBit_four, e00, e20, decide_True, decide_False] <;> simp
  · rw [interpret_cards_right_state_eq]
    by_cases hy : d1 &&& 0x01 = 0 <;> by_cases hr : d0 &&& 0x10 = 0 <;>
      simp only [hy, hr, ne_eq, eq_self_iff_true, not_true, not_false_iff,
        if_true, if_false, ite_true, ite_false, Nat.testBit_lor, py_and_not_testBit,
        testBit_one, testBit_four, e02, e22, decide_True, decide_False] <;> simp
  · rw [interpret_cards_right_state_eq]
    by_cases hp : d1 &&& 0x04 = 0 <;>
      simp only [hp, ne_eq, eq_self_iff_true, not_true, not_false_iff,
        if_true, if_false, ite_true, ite_false, Nat.testBit_lor, py_and_not_testBit,
        testBit_four, e22, decide_True, decide_False] <;> simp
  · intro k hk0 hk2
    have e0 : decide (0 = k) = false := decide_eq_false (fun h => hk0 h.symm)
    have e2 : decide (2 = k) = false := decide_eq_false (fun h => hk2 h.symm)
    rw [interpret_cards_right_state_eq]
    by_cases hy : d1 &&& 0x01 = 0 <;> by_cases hr : d0 &&& 0x10 = 0 <;>
      simp only [hy, hr, ne_eq, eq_self_iff_true, not_true, not_false_iff,
        if_true, if_false, ite_true, ite_false, Nat.testBit_lor, py_and_not_testBit,
        testBit_one, testBit_four, e0, e2] <;> simp
  · intro k hk2
    have e2 : decide (2 = k) = false := decide_eq_false (fun h => hk2 h.symm)
    rw [interpret_cards_right_state_eq]
    by_cases hp : d1 &&& 0x04 = 0 <;>
      simp only [hp, ne_eq, eq_self_iff_true, not_true, not_false_iff,
        if_true, if_false, ite_true, ite_false, Nat.testBit_lor, py_and_not_testBit,
        testBit_four, e2] <;> simp

/-- Witness for the C8 theorem at the concrete payload `[0x10, 0x05]`. -/
theorem cards_update_exactly_own_side_bits_witness :
    ((interpret_cards [0x10, 0x05] "leftCards" fs_data).2.b8.testBit 1 =
      decide ((0x10 : Nat) &&& 0x10 ≠ 0)) ∧
    ((interpret_cards [0x10, 0x05] "leftCards" fs_data).2.b8.testBit 7 =
      fs_data.b8.testBit 7) ∧
    ((interpret_cards [0x10, 0x05] "leftCards" fs_data).2.b6.testBit 0 =
      fs_data.b6.testBit 0) ∧
    ((interpret_cards [0x10, 0x05] "rightCards" fs_data).2.b8.testBit 5 =
      fs_data.b8.testBit 5) ∧
    ((interpret_cards [0x10, 0x05] "rightCards" fs_data).2.b6.testBit 1 =
      fs_data.b6.testBit 1) :=
  ⟨(cards_update_exactly_own_side_bits 0x10 0x05 fs_data).1,
   (cards_update_exactly_own_side_bits 0x10 0x05 fs_data).2.2.2.1 7
     (by decide) (by decide),
   (cards_update_exactly_own_side_bits 0x10 0x05 fs_data).2.2.2.2.1 0 (by decide),
   (cards_update_exactly_own_side_bits 0x10 0x05 fs_data).2.2.2.2.2.2.2.2.2.1 5
     (by decide) (by decide),
   (cards_update_exactly_own_side_bits 0x10 0x05 fs_data).2.2.2.2.2.2.2.2.2.2.1 1
     (by decide)⟩

/-- C9 counterexample: a single write failure terminates the transmit
loop of `send_favero_data` — the loop result is an escaped exception,
not a live loop, and a tick scheduled after the failure is never
reached. -/
theorem transmit_loop_termination_counterexample :
    ¬ ((send_favero_data fs_data [false]).2 = none) ∧
    ((send_favero_data fs_data [false, true]).2 =
      some "SerialException: write failed") := by
  decide

/-- C9 amended: neither loop contains any error handling — a failing
`ser.write` raises a `SerialException` that escapes `send_favero_data`
and terminates the transmit loop at that tick, and a decoder error
propagates out of `handle_notification` uncaught (the dispatcher applies
no try/except around the decoders). -/
theorem failure_terminates_loops (fs : FsData) :
    (∀ rest : List Bool,
      (send_favero_data fs (false :: rest)).2 =
        some "SerialException: write failed") ∧
    (∀ d : List Nat, d.length ≠ 2 →
      (handle_notification "lamp" d fs).1 =
        .exn "Invalid input data. Must be a bytearray of length 2") := by
  constructor
  · intro rest
    rfl
  · intro d hd
    simp [handle_notification, interpret_lamps, hd]

/-- Witness for the C9 theorem at a one-element failing trace and an
empty lamp payload. -/
theorem failure_terminates_loops_witness :
    ((send_favero_data fs_data [false]).2 =
      some "SerialException: write failed") ∧
    ((handle_notification "lamp" [] fs_data).1 =
      .exn "Invalid input data. Must be a bytearray of length 2") :=
  ⟨(failure_terminates_loops fs_data).1 [],
   (failure_terminates_loops fs_data).2 [] (by decide)⟩
